import Mathlib

/-!
Verification of the operator-composition engine, aggregation protocol and
output-production state machine of the stream-processing DSL in
`src/lib/StreamDSL.js`.

Shallow-embedding conventions:

* JavaScript values are modelled by the inductive `JSVal` (numbers are
  modelled as integers, the only numbers the verified scenarios use).
* The push-based reactive stream (most.js) held in `this.stream$` is
  modelled syntactically by `MostStream`: each primitive operator the DSL
  applies becomes one constructor.  A partial finite-sequence semantics
  `MostStream.runSt` is given for the primitives whose behaviour on a
  finite, fully-delivered input sequence is determined (map, filter,
  skip, take, slice, scan, ...); time- and reference-identity-dependent
  primitives (throttle, debounce, skipRepeats, merge, ...) are mapped to
  `none` ("semantics not modelled here") and no theorem relies on them.
* Asynchronous store-backed transforms (`asyncMap` with an aggregation
  action) are modelled as explicit state-passing over `KStorage`,
  executed in arrival order (the behaviour of the in-memory test stub).
* The promise returned by `.to()` is modelled by `ToOutcome`.  Following
  the ECMAScript / bluebird `Promise` constructor semantics, an exception
  thrown inside the executor function is captured and becomes a
  *rejection* of the returned promise; it does not escape the `.to()`
  call synchronously.  The constructor `ToOutcome.threw` exists to
  express the distinction and is never produced by `StreamDSL.to`.
* A thrown synchronous exception elsewhere (the class constructor) is
  modelled by `Except.error`.
-/

/-- A JavaScript value. Numbers are restricted to integers (the only
numbers occurring in the verified scenarios); objects are association
lists of string keys in insertion order, mirroring JS own-property
order for string keys. -/
inductive JSVal where
  | undefined
  | null
  | bool (b : Bool)
  | num (n : Int)
  | str (s : String)
  | arr (items : List JSVal)
  | obj (fields : List (String × JSVal))

/-- JavaScript `typeof`. Note `typeof null === "object"` and arrays are
`"object"` as well. -/
def jsTypeof : JSVal → String
  | .undefined => "undefined"
  | .null => "object"
  | .bool _ => "boolean"
  | .num _ => "number"
  | .str _ => "string"
  | .arr _ => "object"
  | .obj _ => "object"

/-- First binding of `key` in an association list of object fields. -/
def lookupField : List (String × JSVal) → String → JSVal
  | [], _ => .undefined
  | (a, b) :: rest, key => if a = key then b else lookupField rest key

/-- JavaScript property read `target[key]`.  Missing properties read as
`undefined`.  (Property access on `null`/`undefined` throws a TypeError
in JS; that corner is modelled as `undefined` here and is not exercised by
any theorem below.) -/
def getField (target : JSVal) (key : String) : JSVal :=
  match target with
  | .obj fields => lookupField fields key
  | _ => .undefined

/-- Replace the binding of `key` in place, or append it. -/
def setFields : List (String × JSVal) → String → JSVal → List (String × JSVal)
  | [], key, v => [(key, v)]
  | (a, b) :: rest, key, v =>
      if a = key then (key, v) :: rest else (a, b) :: setFields rest key v

/-- JavaScript property write `target[key] = v` (on objects; a write to a
primitive is silently dropped, as in non-strict JS). -/
def setField (target : JSVal) (key : String) (v : JSVal) : JSVal :=
  match target with
  | .obj fields => .obj (setFields fields key v)
  | other => other

/-- JavaScript string coercion used for store keys.  Only string keys are
exercised by the theorems below; the array/object cases are
placeholders. -/
def jsPropertyKey : JSVal → String
  | .undefined => "undefined"
  | .null => "null"
  | .bool b => if b then "true" else "false"
  | .num n => toString n
  | .str s => s
  | .arr _ => "[array]"
  | .obj _ => "[object Object]"

/-- The Keyed Store Contract (`KStorage`): an abstract key → accumulator
map with get/put, modelled as an association list in insertion order. -/
structure KStorage where
  state : List (String × Int)

def kvLookup : List (String × Int) → String → Option Int
  | [], _ => none
  | (a, b) :: rest, key => if a = key then some b else kvLookup rest key

def kvSet : List (String × Int) → String → Int → List (String × Int)
  | [], key, v => [(key, v)]
  | (a, b) :: rest, key, v =>
      if a = key then (key, v) :: rest else (a, b) :: kvSet rest key v

def KStorage.get (st : KStorage) (key : String) : Option Int :=
  kvLookup st.state key

def KStorage.set (st : KStorage) (key : String) (v : Int) : KStorage :=
  ⟨kvSet st.state key v⟩

/-- The Broker Client Contract.  Only the capability queried by
`StreamDSL.to` is relevant to the claims: whether the client exposes a
`setupProducer` method. -/
structure KafkaClient where
  hasSetupProducer : Bool

/-- Syntactic model of the most.js stream held in `this.stream$`: one
constructor per primitive operator the DSL applies.  `source` stands for
`most.fromEvent("message", this._ee)` together with the finite sequence
of events that will be written to it via `writeToStream`. -/
inductive MostStream where
  | source (events : List JSVal)
  | map (etl : JSVal → JSVal) (s : MostStream)
  | flatMapAction (act : KStorage → JSVal → KStorage × JSVal) (s : MostStream)
  | tap (eff : JSVal → JSVal) (s : MostStream)
  | filter (pred : JSVal → Bool) (s : MostStream)
  | skipRepeats (s : MostStream)
  | skipRepeatsWith (equals : JSVal → JSVal → Bool) (s : MostStream)
  | skip (count : Nat) (s : MostStream)
  | take (count : Nat) (s : MostStream)
  | multicast (s : MostStream)
  | timestamp (s : MostStream)
  | constant (substitute : JSVal) (s : MostStream)
  | scan (eff : JSVal → JSVal → JSVal) (initial : JSVal) (s : MostStream)
  | slice (start fin : Nat) (s : MostStream)
  | takeWhile (pred : JSVal → Bool) (s : MostStream)
  | skipWhile (pred : JSVal → Bool) (s : MostStream)
  | until (signal : MostStream) (s : MostStream)
  | since (signal : MostStream) (s : MostStream)
  | throttle (period : Nat) (s : MostStream)
  | delay (time : Nat) (s : MostStream)
  | debounce (time : Nat) (s : MostStream)
  | merge (a b : MostStream)
  | zip (combine : JSVal → JSVal → JSVal) (a b : MostStream)
  | combineLatest (combine : JSVal → JSVal → JSVal) (a b : MostStream)
  | sample (combine : JSVal → JSVal → JSVal) (sampler a b : MostStream)
  | joinFlatten (s : MostStream)

/-- The valid produce modes, in the enumeration order of
`Object.keys(PRODUCE_TYPES)` in the source: SEND, BUFFER, BUFFER_FORMAT. -/
def produceTypesList : List String := ["send", "buffer", "buffer_format"]

def DEFAULT_AUTO_FLUSH_BUFFER_SIZE : Nat := 100

/-- The Pipeline Handle (`class StreamDSL`): one logical event-source
reference plus topic/production-binding bookkeeping.  The JS fields
`_ee` (folded into `MostStream.source`), `_kafkaStreams` (opaque back
reference) and the two exposed constant tables are omitted; all fields
any claim speaks about are present under their source names
(`produceAsTopic` is the spec's `boundToOutput`). -/
structure StreamDSL where
  topicName : String
  kafka : Option KafkaClient
  storage : KStorage
  isClone : Bool
  stream : MostStream
  produceAsTopic : Bool
  outputTopicName : Option String
  outputPartitionsCount : Nat
  produceType : String
  produceVersion : Nat
  produceCompressionType : Nat

def kafkaErrMsg : String := "kafka has to be an instance of KafkaClient."

def storageErrMsg : String := "storage hsa to be an instance of KStorage."

/-- `new StreamDSL(topicName, storage, kafka, isClone)`.  A synchronous
constructor throw is modelled as `Except.error`.  `injected` is the
(ghost) finite sequence of events later written through
`writeToStream`; the `instanceof` checks are modelled as presence of the
collaborator (`Option`), so a wrong-type argument coincides with a
missing one.  The second storage check in the source (lines 52-54) is
unreachable given the first and is not repeated here. -/
def StreamDSL.construct (topicName : Option String) (storage : Option KStorage)
    (kafka : Option KafkaClient) (isClone : Bool) (injected : List JSVal) :
    Except String StreamDSL :=
  if !isClone && kafka.isNone then .error kafkaErrMsg
  else
    match storage with
    | none => .error storageErrMsg
    | some st =>
        .ok { topicName := topicName.getD "", kafka := kafka, storage := st,
              isClone := isClone, stream := .source injected,
              produceAsTopic := false, outputTopicName := none,
              outputPartitionsCount := 1, produceType := "send",
              produceVersion := 1, produceCompressionType := 0 }

/-! DSL operators: every operator rewraps `this.stream$` by one primitive
and returns the same handle (modelled as the record with only `stream`
updated). -/

def StreamDSL.map (s : StreamDSL) (etl : JSVal → JSVal) : StreamDSL :=
  { s with stream := .map etl s.stream }

/-- `asyncMap(etl)`: `this.stream$.flatMap(value => most.fromPromise(etl(value)))`.
The promise-returning transform is modelled as an explicit state-passing
action against the shared keyed store, completed in arrival order. -/
def StreamDSL.asyncMap (s : StreamDSL) (act : KStorage → JSVal → KStorage × JSVal) : StreamDSL :=
  { s with stream := .flatMapAction act s.stream }

def StreamDSL.tap (s : StreamDSL) (eff : JSVal → JSVal) : StreamDSL :=
  { s with stream := .tap eff s.stream }

def StreamDSL.filter (s : StreamDSL) (pred : JSVal → Bool) : StreamDSL :=
  { s with stream := .filter pred s.stream }

def StreamDSL.skipRepeats (s : StreamDSL) : StreamDSL :=
  { s with stream := .skipRepeats s.stream }

def StreamDSL.skipRepeatsWith (s : StreamDSL) (equals : JSVal → JSVal → Bool) : StreamDSL :=
  { s with stream := .skipRepeatsWith equals s.stream }

def StreamDSL.skip (s : StreamDSL) (count : Nat) : StreamDSL :=
  { s with stream := .skip count s.stream }

def StreamDSL.take (s : StreamDSL) (count : Nat) : StreamDSL :=
  { s with stream := .take count s.stream }

def StreamDSL.multicast (s : StreamDSL) : StreamDSL :=
  { s with stream := .multicast s.stream }

/-- `timestamp(etl)`: without an argument delegates to the primitive
`timestamp`; with one, it is a `map` wrapping each element in
`{time: etl(element), value: element}` (source lines 460-475). -/
def StreamDSL.timestamp (s : StreamDSL) (etl : Option (JSVal → JSVal)) : StreamDSL :=
  match etl with
  | none => { s with stream := .timestamp s.stream }
  | some f =>
      { s with stream := .map (fun element =>
          .obj [("time", f element), ("value", element)]) s.stream }

def StreamDSL.constant (s : StreamDSL) (substitute : JSVal) : StreamDSL :=
  { s with stream := .constant substitute s.stream }

def StreamDSL.scan (s : StreamDSL) (eff : JSVal → JSVal → JSVal) (initial : JSVal) : StreamDSL :=
  { s with stream := .scan eff initial s.stream }

def StreamDSL.slice (s : StreamDSL) (start fin : Nat) : StreamDSL :=
  { s with stream := .slice start fin s.stream }

def StreamDSL.takeWhile (s : StreamDSL) (pred : JSVal → Bool) : StreamDSL :=
  { s with stream := .takeWhile pred s.stream }

def StreamDSL.skipWhile (s : StreamDSL) (pred : JSVal → Bool) : StreamDSL :=
  { s with stream := .skipWhile pred s.stream }

def StreamDSL.until (s : StreamDSL) (signal : MostStream) : StreamDSL :=
  { s with stream := .until signal s.stream }

def StreamDSL.since (s : StreamDSL) (signal : MostStream) : StreamDSL :=
  { s with stream := .since signal s.stream }

def StreamDSL.throttle (s : StreamDSL) (throttlePeriod : Nat) : StreamDSL :=
  { s with stream := .throttle throttlePeriod s.stream }

def StreamDSL.delay (s : StreamDSL) (delayTime : Nat) : StreamDSL :=
  { s with stream := .delay delayTime s.stream }

def StreamDSL.debounce (s : StreamDSL) (debounceTime : Nat) : StreamDSL :=
  { s with stream := .debounce debounceTime s.stream }

/-! Aggregation and convenience maps (source lines 265-453, 644-694). -/

/-- `mapToFormat`'s per-message transform (source lines 410-425).  The
environmental inputs `(new Date()).toISOString()` and `uuid.v4()` are
passed in as the parameters `now` and `freshId`. -/
def mapToFormatEtl (type : String) (getId : Option (JSVal → JSVal))
    (now freshId : String) (message : JSVal) : JSVal :=
  .obj [("payload", message),
        ("time", .str now),
        ("type", .str type),
        ("id", match getId with | some g => g message | none => .str freshId)]

/-- `mapFromFormat`'s per-message transform (source lines 432-453):
objects yield their `payload` property; strings are `JSON.parse`d (the
parser is a parameter; `none` models a parse throw) and yield `payload`
when the parse result is an object; everything else passes through. -/
def mapFromFormatEtl (parse : String → Option JSVal) (message : JSVal) : JSVal :=
  if jsTypeof message = "object" then getField message "payload"
  else
    match message with
    | .str s =>
        match parse s with
        | some object => if jsTypeof object = "object" then getField object "payload" else message
        | none => message
    | _ => message

def StreamDSL.mapToFormat (s : StreamDSL) (type : String)
    (getId : Option (JSVal → JSVal)) (now freshId : String) : StreamDSL :=
  s.map (mapToFormatEtl type getId now freshId)

def StreamDSL.mapFromFormat (s : StreamDSL) (parse : String → Option JSVal) : StreamDSL :=
  s.map (mapFromFormatEtl parse)

/-- Modelled from the spec: the aggregation action `KeyCount` lives in
`lib/actions`, which is not among the sources here; only its
construction site (`countByKey`, source lines 644-648) is.  Spec 4.2:
extract `k = event[keyField]`; if the key is absent pass the event
through unmodified without touching the store; otherwise read the
accumulator for `k` (absent reads as zero), increment by one, write it
back, and return the event augmented with the new accumulator under the
configured output field name. -/
def keyCountExecute (keyField countField : String)
    (store : KStorage) (event : JSVal) : KStorage × JSVal :=
  match getField event keyField with
  | .undefined => (store, event)
  | k =>
      let kk := jsPropertyKey k
      let next := ((store.get kk).getD 0) + 1
      (store.set kk next, setField event countField (.num next))

/-- `countByKey(key, countFieldName)`: builds a `KeyCount` over the
handle's storage and chains it through `asyncMap` (source lines 644-648). -/
def StreamDSL.countByKey (s : StreamDSL) (key : String := "key")
    (countFieldName : String := "count") : StreamDSL :=
  s.asyncMap (keyCountExecute key countFieldName)

/-! Finite-sequence semantics of the modelled most.js primitives. -/

/-- Run a store-backed asynchronous transform over the events in arrival
order, threading the shared store. -/
def runActions (act : KStorage → JSVal → KStorage × JSVal) :
    KStorage → List JSVal → List JSVal × KStorage
  | st, [] => ([], st)
  | st, v :: vs =>
      let r := act st v
      let rest := runActions act r.1 vs
      (r.2 :: rest.1, rest.2)

/-- most.js `scan(f, z)` emits the initial value followed by every
intermediate accumulation. -/
def scanlJS (eff : JSVal → JSVal → JSVal) (initial : JSVal) : List JSVal → List JSVal
  | [] => [initial]
  | a :: as => initial :: scanlJS eff (eff initial a) as

/-- Partial denotation of a `MostStream` on its finite, fully-delivered
source sequence, threading the keyed store through asynchronous
actions.  Primitives whose finite-sequence behaviour is not determined
by the sequence alone (wall-clock operators, reference-identity
`skipRepeats`, multi-source interleavings) denote `none`; no theorem
below depends on them.  `take`/`skip` truncate the *output* sequence;
upstream effects are threaded for the whole source, which is adequate
for every property stated below (no truncation precedes a stateful
stage in any of them). -/
def MostStream.runSt : MostStream → KStorage → Option (List JSVal × KStorage)
  | .source xs, st => some (xs, st)
  | .map f s, st => (s.runSt st).map fun p => (p.1.map f, p.2)
  | .flatMapAction act s, st => (s.runSt st).map fun p => runActions act p.2 p.1
  | .tap _ s, st => s.runSt st
  | .filter pred s, st => (s.runSt st).map fun p => (p.1.filter pred, p.2)
  | .skip n s, st => (s.runSt st).map fun p => (p.1.drop n, p.2)
  | .take n s, st => (s.runSt st).map fun p => (p.1.take n, p.2)
  | .skipWhile pred s, st => (s.runSt st).map fun p => (p.1.dropWhile pred, p.2)
  | .takeWhile pred s, st => (s.runSt st).map fun p => (p.1.takeWhile pred, p.2)
  | .slice a b s, st => (s.runSt st).map fun p => ((p.1.drop a).take (b - a), p.2)
  | .constant v s, st => (s.runSt st).map fun p => (p.1.map fun _ => v, p.2)
  | .scan f z s, st => (s.runSt st).map fun p => (scanlJS f z p.1, p.2)
  | .multicast s, st => s.runSt st
  | _, _ => none

/-! The output-production state machine (`StreamDSL.to`, source lines
788-850). -/

/-- `String.prototype.toLowerCase()` restricted to ASCII (the letters the
enumerated produce modes use), written over the character list so that
it reduces inside the kernel. -/
def jsToLower (s : String) : String := ⟨s.data.map Char.toLower⟩

def alreadyCalledMsg : String := ".to() has already been called on this dsl instance."

def produceTypeErrorMsg : String :=
  "produceType must be a supported types: " ++ String.intercalate ", " produceTypesList ++ "."

def cloneNeedsKafkaMsg : String :=
  "setting .to() on a cloned KStream requires a kafka client to injected during merge."

/-- Outcome of the promise returned by `.to()`.  Exceptions thrown inside
the promise executor become rejections (ECMAScript Promise-constructor
semantics); `threw` — a synchronous exception escaping the `.to()` call
itself — is representable but never produced. -/
inductive ToOutcome where
  | threw (msg : String)
  | rejected (msg : String)
  | resolvedTrue
  | pendingSetup
deriving DecidableEq

/-- The terminal `forEach` consumer attached by a clone's `.to()`
(source lines 824-847), with the call arguments its closure captured. -/
structure TerminalConsumer where
  attached : Bool
  version : Nat
  compressionType : Nat
  hasErrorCallback : Bool

/-- Result of one `.to()` call: the handle afterwards, the promise
outcome, whether `kafka.setupProducer` was invoked, and the terminal
consumer (attached or not). -/
structure ToResult where
  state : StreamDSL
  outcome : ToOutcome
  setupRequested : Bool
  terminal : TerminalConsumer

/-- True when the held broker client is absent or lacks `setupProducer`
(`!this.kafka || !this.kafka.setupProducer`). -/
def kafkaLacksSetup : Option KafkaClient → Bool
  | none => true
  | some k => !k.hasSetupProducer

/-- `to(topic, outputPartitionsCount, produceType, version,
compressionType, producerErrorCallback)`, source lines 788-850.  On
strings, `produceType = produceType || ""` is the identity, so it is
omitted; `producerErrorCallback` is abstracted to whether one was
supplied. -/
def StreamDSL.to (s : StreamDSL) (topic : String) (outputPartitionsCount : Nat)
    (produceType : String) (version : Nat) (compressionType : Nat)
    (hasErrorCallback : Bool) : ToResult :=
  let noConsumer : TerminalConsumer :=
    ⟨false, version, compressionType, hasErrorCallback⟩
  if s.produceAsTopic then
    { state := s, outcome := .rejected alreadyCalledMsg,
      setupRequested := false, terminal := noConsumer }
  else
    let pt := jsToLower produceType
    if produceTypesList.contains pt then
      let bound : StreamDSL :=
        { s with produceAsTopic := true, outputTopicName := some topic,
                 outputPartitionsCount := outputPartitionsCount, produceType := pt,
                 produceVersion := version, produceCompressionType := compressionType }
      if !bound.isClone then
        { state := bound, outcome := .resolvedTrue,
          setupRequested := false, terminal := noConsumer }
      else if kafkaLacksSetup bound.kafka then
        { state := bound, outcome := .rejected cloneNeedsKafkaMsg,
          setupRequested := false, terminal := noConsumer }
      else
        { state := bound, outcome := .pendingSetup, setupRequested := true,
          terminal := ⟨true, version, compressionType, hasErrorCallback⟩ }
    else
      { state := s, outcome := .rejected produceTypeErrorMsg,
        setupRequested := false, terminal := noConsumer }

/-- One broker dispatch issued by the terminal consumer.  The `switch` on
`this.produceType` has exactly the three enumerated cases; any other
value leaves the promise `null` (modelled `none`; unreachable once
`.to()` validated the mode). -/
inductive Dispatch where
  | send (topic : Option String) (message : JSVal)
  | buffer (topic : Option String) (key : Option JSVal) (message : JSVal)
      (compressionType : Nat)
  | bufferFormat (topic : Option String) (key : Option JSVal) (message : JSVal)
      (version : Nat) (compressionType : Nat)

def dispatchMessage (s : StreamDSL) (tc : TerminalConsumer) (message : JSVal) :
    Option Dispatch :=
  if s.produceType = "send" then some (.send s.outputTopicName message)
  else if s.produceType = "buffer" then
    some (.buffer s.outputTopicName none message tc.compressionType)
  else if s.produceType = "buffer_format" then
    some (.bufferFormat s.outputTopicName none message tc.version tc.compressionType)
  else none

/-- Run the terminal consumer body over the finite sequence of terminal
events; each event is paired with whether its broker promise rejects.
Returns the dispatches issued (one per event, in order) and the
messages whose dispatch error was forwarded to the caller-supplied
error callback (the `promise.catch` handler, source lines 842-846). -/
def runTerminal (s : StreamDSL) (tc : TerminalConsumer) :
    List (JSVal × Bool) → List (Option Dispatch) × List JSVal
  | [] => ([], [])
  | (message, failed) :: rest =>
      let r := runTerminal s tc rest
      (dispatchMessage s tc message :: r.1,
       (if failed && tc.hasErrorCallback then [message] else []) ++ r.2)

/-- Events reach the broker only if a terminal consumer was attached. -/
def consumeTerminal (s : StreamDSL) (tc : TerminalConsumer)
    (events : List (JSVal × Bool)) : List (Option Dispatch) × List JSVal :=
  if tc.attached then runTerminal s tc events else ([], [])

/-! Frame projection and concrete sample data used by witnesses. -/

/-- Every field of a pipeline handle except the held event-source
reference. -/
structure HandleFrame where
  topicName : String
  kafka : Option KafkaClient
  storage : KStorage
  isClone : Bool
  produceAsTopic : Bool
  outputTopicName : Option String
  outputPartitionsCount : Nat
  produceType : String
  produceVersion : Nat
  produceCompressionType : Nat

def StreamDSL.frame (s : StreamDSL) : HandleFrame :=
  ⟨s.topicName, s.kafka, s.storage, s.isClone, s.produceAsTopic,
   s.outputTopicName, s.outputPartitionsCount, s.produceType,
   s.produceVersion, s.produceCompressionType⟩

def emptyStorage : KStorage := ⟨[]⟩

def producerKafka : KafkaClient := ⟨true⟩

def bareKafka : KafkaClient := ⟨false⟩

/-- A freshly constructed, unbound, non-clone handle over a source that
will receive `xs`. -/
def mkHandle (xs : List JSVal) : StreamDSL :=
  { topicName := "topic-in", kafka := some producerKafka, storage := emptyStorage,
    isClone := false, stream := .source xs, produceAsTopic := false,
    outputTopicName := none, outputPartitionsCount := 1, produceType := "send",
    produceVersion := 1, produceCompressionType := 0 }

def baseHandle : StreamDSL := mkHandle []

def boundHandle : StreamDSL := { baseHandle with produceAsTopic := true }

def cloneNoSetupHandle : StreamDSL :=
  { baseHandle with isClone := true, kafka := some bareKafka }

def cloneNoKafkaHandle : StreamDSL :=
  { baseHandle with isClone := true, kafka := none }

def cloneReadyHandle : StreamDSL :=
  { baseHandle with isClone := true, kafka := some producerKafka }

/-- An event `{key: k}`. -/
def mkKeyed (k : String) : JSVal := .obj [("key", .str k)]

/-- The ten events named by claim C9. -/
def c9Events : List JSVal :=
  [mkKeyed "if", mkKeyed "bla", mkKeyed "if", mkKeyed "blup", mkKeyed "blup",
   mkKeyed "if", mkKeyed "bla", mkKeyed "if", mkKeyed "bla", mkKeyed "blup"]

/-- Run of `countByKey("key", "Counts")` over the C9 events from an empty
store. -/
def c9Run : Option (List JSVal × KStorage) :=
  ((mkHandle c9Events).countByKey "key" "Counts").stream.runSt emptyStorage

def c9FinalStoreGet (k : String) : Option Int :=
  match c9Run with
  | some p => p.2.get k
  | none => none

/-- An event `{key: k, Counts: c}` as produced by the modelled
`KeyCount`. -/
def mkCounted (k : String) (c : Int) : JSVal :=
  .obj [("key", .str k), ("Counts", .num c)]

/-- The augmented events the C9 input actually produces, in arrival
order. -/
def c9ExpectedOutputs : List JSVal :=
  [mkCounted "if" 1, mkCounted "bla" 1, mkCounted "if" 2, mkCounted "blup" 1,
   mkCounted "blup" 2, mkCounted "if" 3, mkCounted "bla" 2, mkCounted "if" 4,
   mkCounted "bla" 3, mkCounted "blup" 3]

/-! Theorems. -/

/-- Claim C4: for every payload value, feeding it through the transform
installed by `mapToFormat(type, getId)` and then through the transform
installed by `mapFromFormat()` yields the payload again exactly: the
envelope `{payload, time, type, id}` is built and unwrapped back to the
original payload, for any parser, type tag, id extractor, timestamp and
generated id. -/
theorem mapToFormat_mapFromFormat_roundtrip (parse : String → Option JSVal)
    (type : String) (getId : Option (JSVal → JSVal)) (now freshId : String)
    (v : JSVal) :
    mapFromFormatEtl parse (mapToFormatEtl type getId now freshId v) = v := rfl

/-- Claim C6: every DSL operator (`map`, `asyncMap`, `filter`, `tap`,
`scan`, `throttle`, `delay`, `debounce`, `skip`, `take`, `skipWhile`,
`takeWhile`, `skipRepeats`, `skipRepeatsWith`, `slice`, `constant`,
`timestamp`, `until`, `since`) is a pure rewrap: it returns the handle
with the held event-source reference replaced by one primitive applied
to the previous source, and every other field (`topicName`, `isClone`,
storage and broker-client references, and all production-binding
fields, collected in `StreamDSL.frame`) unchanged. -/
theorem dsl_operators_pure_rewrap (s : StreamDSL) (etl : JSVal → JSVal)
    (act : KStorage → JSVal → KStorage × JSVal) (pred : JSVal → Bool)
    (equals : JSVal → JSVal → Bool) (n m : Nat) (v : JSVal)
    (eff2 : JSVal → JSVal → JSVal) (sig : MostStream) (t : Nat) :
    ((s.map etl).frame = s.frame ∧ (s.map etl).stream = .map etl s.stream)
  ∧ ((s.asyncMap act).frame = s.frame
      ∧ (s.asyncMap act).stream = .flatMapAction act s.stream)
  ∧ ((s.filter pred).frame = s.frame ∧ (s.filter pred).stream = .filter pred s.stream)
  ∧ ((s.tap etl).frame = s.frame ∧ (s.tap etl).stream = .tap etl s.stream)
  ∧ ((s.scan eff2 v).frame = s.frame ∧ (s.scan eff2 v).stream = .scan eff2 v s.stream)
  ∧ ((s.throttle t).frame = s.frame ∧ (s.throttle t).stream = .throttle t s.stream)
  ∧ ((s.delay t).frame = s.frame ∧ (s.delay t).stream = .delay t s.stream)
  ∧ ((s.debounce t).frame = s.frame ∧ (s.debounce t).stream = .debounce t s.stream)
  ∧ ((s.skip n).frame = s.frame ∧ (s.skip n).stream = .skip n s.stream)
  ∧ ((s.take m).frame = s.frame ∧ (s.take m).stream = .take m s.stream)
  ∧ ((s.skipWhile pred).frame = s.frame
      ∧ (s.skipWhile pred).stream = .skipWhile pred s.stream)
  ∧ ((s.takeWhile pred).frame = s.frame
      ∧ (s.takeWhile pred).stream = .takeWhile pred s.stream)
  ∧ (s.skipRepeats.frame = s.frame ∧ s.skipRepeats.stream = .skipRepeats s.stream)
  ∧ ((s.skipRepeatsWith equals).frame = s.frame
      ∧ (s.skipRepeatsWith equals).stream = .skipRepeatsWith equals s.stream)
  ∧ ((s.slice n m).frame = s.frame ∧ (s.slice n m).stream = .slice n m s.stream)
  ∧ ((s.constant v).frame = s.frame ∧ (s.constant v).stream = .constant v s.stream)
  ∧ ((s.timestamp none).frame = s.frame
      ∧ (s.timestamp none).stream = .timestamp s.stream)
  ∧ ((s.timestamp (some etl)).frame = s.frame
      ∧ (s.timestamp (some etl)).stream
          = .map (fun element => .obj [("time", etl element), ("value", element)]) s.stream)
  ∧ ((s.until sig).frame = s.frame ∧ (s.until sig).stream = .until sig s.stream)
  ∧ ((s.since sig).frame = s.frame ∧ (s.since sig).stream = .since sig s.stream) :=
  ⟨⟨rfl, rfl⟩, ⟨rfl, rfl⟩, ⟨rfl, rfl⟩, ⟨rfl, rfl⟩, ⟨rfl, rfl⟩, ⟨rfl, rfl⟩,
   ⟨rfl, rfl⟩, ⟨rfl, rfl⟩, ⟨rfl, rfl⟩, ⟨rfl, rfl⟩, ⟨rfl, rfl⟩, ⟨rfl, rfl⟩,
   ⟨rfl, rfl⟩, ⟨rfl, rfl⟩, ⟨rfl, rfl⟩, ⟨rfl, rfl⟩, ⟨rfl, rfl⟩, ⟨rfl, rfl⟩,
   ⟨rfl, rfl⟩, ⟨rfl, rfl⟩⟩

/-- Claim C8: on a handle whose source delivers the finite sequence
`xs`, `skip(n)` followed by `take(m)` yields exactly the segment
`(xs.drop n).take m` — hence `min m (xs.length - n)` events (over the
naturals, `xs.length - n` is `max 0 (L - n)`), in the original relative
order (a sublist of the input). -/
theorem skip_take_yields_segment (s : StreamDSL) (n m : Nat) (st st2 : KStorage)
    (xs : List JSVal) (h : s.stream.runSt st = some (xs, st2)) :
    ((s.skip n).take m).stream.runSt st = some ((xs.drop n).take m, st2)
  ∧ ((xs.drop n).take m).length = min m (xs.length - n)
  ∧ ((xs.drop n).take m).Sublist xs := by
  refine ⟨?_, ?_, ?_⟩
  · simp [StreamDSL.skip, StreamDSL.take, MostStream.runSt, h]
  · simp [List.length_take, List.length_drop]
  · exact (List.take_sublist _ _).trans (List.drop_sublist _ _)

/-- Witness for C8 at a concrete three-event source with `n = m = 1`. -/
theorem skip_take_yields_segment_witness :
    (((mkHandle [JSVal.num 1, JSVal.num 2, JSVal.num 3]).skip 1).take 1).stream.runSt
        emptyStorage
      = some (([JSVal.num 1, JSVal.num 2, JSVal.num 3].drop 1).take 1, emptyStorage)
  ∧ (([JSVal.num 1, JSVal.num 2, JSVal.num 3].drop 1).take 1).length
      = min 1 ([JSVal.num 1, JSVal.num 2, JSVal.num 3].length - 1)
  ∧ (([JSVal.num 1, JSVal.num 2, JSVal.num 3].drop 1).take 1).Sublist
      [JSVal.num 1, JSVal.num 2, JSVal.num 3] :=
  skip_take_yields_segment (mkHandle [JSVal.num 1, JSVal.num 2, JSVal.num 3]) 1 1
    emptyStorage emptyStorage [JSVal.num 1, JSVal.num 2, JSVal.num 3] rfl

/-- Claim C9, counterexample: feeding the ten events named by the claim
(keys if, bla, if, blup, blup, if, bla, if, bla, blup) through
`countByKey("key", "Counts")` leaves the store with `if = 4` — `if`
occurs four times in that list — not the claimed `if = 5`. -/
theorem countByKey_stated_counts_counterexample :
    c9FinalStoreGet "if" = some 4 ∧ c9FinalStoreGet "if" ≠ some 5 :=
  ⟨rfl, by decide⟩

/-- Claim C9 as amended: feeding the ten stated events through
`countByKey("key", "Counts")` leaves the keyed store with final counts
`if = 4`, `bla = 3`, `blup = 3` (in first-seen key order), the augmented
events appear in arrival order, and the last three of them carry each
key's final count in first-seen key order (4, then 3, then 3). -/
theorem countByKey_stated_counts_amended :
    c9Run = some (c9ExpectedOutputs, ⟨[("if", 4), ("bla", 3), ("blup", 3)]⟩)
  ∧ c9ExpectedOutputs.drop 7
      = [mkCounted "if" 4, mkCounted "bla" 3, mkCounted "blup" 3] :=
  ⟨rfl, rfl⟩

/-- The clone-binding error message differs from the produce-mode error
message. -/
theorem cloneMsg_ne_typeMsg : cloneNeedsKafkaMsg ≠ produceTypeErrorMsg := by
  decide

/-- Claim C1 as amended: once a call to `to` has passed produce-mode
validation and set the bound flag (in particular, once any call has
succeeded), every subsequent call on the handle fails with the
"already been called" configuration error and leaves the handle
unchanged; from an unbound handle, a call sets the flag exactly when
its produce mode validates — so the flag transitions false to true
exactly once, and a call rejected for an invalid mode does not block a
later binding. -/
theorem to_rebind_gate (s : StreamDSL) (t pt : String) (n ver c : Nat) (cb : Bool) :
    (s.produceAsTopic = true →
      (s.to t n pt ver c cb).outcome = .rejected alreadyCalledMsg
        ∧ (s.to t n pt ver c cb).state = s)
  ∧ (s.produceAsTopic = false →
      ((s.to t n pt ver c cb).state.produceAsTopic = true
        ↔ (jsToLower pt) ∈ produceTypesList)) := by
  constructor
  · intro h
    simp [StreamDSL.to, h]
  · intro h
    by_cases hc : (jsToLower pt) ∈ produceTypesList
    · simp only [StreamDSL.to, h, Bool.false_eq_true, if_false]
      rw [if_pos (by simpa using hc)]
      split
      · simpa using hc
      · split <;> simpa using hc
    · simp [StreamDSL.to, h, hc]

/-- Witness for C1: a bound handle rejects a second binding unchanged,
and an unbound handle binds on a valid mode. -/
theorem to_rebind_gate_witness :
    ((boundHandle.to "out" 1 "send" 1 0 false).outcome = .rejected alreadyCalledMsg
      ∧ (boundHandle.to "out" 1 "send" 1 0 false).state = boundHandle)
  ∧ ((baseHandle.to "out" 1 "send" 1 0 false).state.produceAsTopic = true
      ↔ jsToLower "send" ∈ produceTypesList) :=
  ⟨(to_rebind_gate boundHandle "out" "send" 1 1 0 false).1 rfl,
   (to_rebind_gate baseHandle "out" "send" 1 1 0 false).2 rfl⟩

/-- Counterexample to C1 as stated: a first call to `to` with an invalid
produce mode fails, yet — because the source validates the mode before
setting the bound flag — a subsequent call on the resulting handle
succeeds rather than failing with a configuration error. -/
theorem to_rebind_gate_counterexample :
    ((baseHandle.to "out" 1 "bogus" 1 0 false).outcome
        = ToOutcome.rejected produceTypeErrorMsg)
  ∧ (((baseHandle.to "out" 1 "bogus" 1 0 false).state.to "out" 1 "send" 1 0
        false).outcome = ToOutcome.resolvedTrue) := by
  constructor
  · decide
  · decide

/-- Claim C2: on an unbound handle, `to` fails with the configuration
error naming the valid set exactly when the lower-cased requested mode
is not one of send, buffer, buffer_format; when it is (in any letter
case), no such error is raised and the mode is stored normalized to
lower case.  The error message names all three valid modes. -/
theorem to_produce_mode_validation (s : StreamDSL) (t pt : String) (n ver c : Nat)
    (cb : Bool) (h : s.produceAsTopic = false) :
    ((s.to t n pt ver c cb).outcome = .rejected produceTypeErrorMsg
        ↔ (jsToLower pt) ∉ produceTypesList)
  ∧ ((jsToLower pt) ∈ produceTypesList →
        (s.to t n pt ver c cb).state.produceType = (jsToLower pt))
  ∧ produceTypeErrorMsg
      = "produceType must be a supported types: send, buffer, buffer_format." := by
  refine ⟨?_, ?_, by decide⟩
  · by_cases hc : (jsToLower pt) ∈ produceTypesList
    · simp only [StreamDSL.to, h, Bool.false_eq_true, if_false]
      rw [if_pos (by simpa using hc)]
      split
      · simp [hc]
      · split <;> simp [hc, cloneMsg_ne_typeMsg]
    · simp [StreamDSL.to, h, hc]
  · intro hc
    simp only [StreamDSL.to, h, Bool.false_eq_true, if_false]
    rw [if_pos (by simpa using hc)]
    split
    · simp
    · split <;> simp

/-- Witness for C2 with the upper-cased valid mode `"BUFFER"` on an
unbound handle. -/
theorem to_produce_mode_validation_witness :
    ((baseHandle.to "out" 1 "BUFFER" 1 0 false).outcome
        = .rejected produceTypeErrorMsg
      ↔ jsToLower "BUFFER" ∉ produceTypesList)
  ∧ (jsToLower "BUFFER" ∈ produceTypesList →
      (baseHandle.to "out" 1 "BUFFER" 1 0 false).state.produceType
        = jsToLower "BUFFER")
  ∧ produceTypeErrorMsg
      = "produceType must be a supported types: send, buffer, buffer_format." :=
  to_produce_mode_validation baseHandle "out" "BUFFER" 1 1 0 false rfl

/-- Claim C3: on an unbound clone whose broker client is absent or lacks
the producer-setup capability, `to` (with a valid mode) fails with the
clone configuration error, requests no producer setup, attaches no
terminal consumer, and consequently no event is consumed or dispatched
to the broker. -/
theorem to_clone_missing_setup_rejects (s : StreamDSL) (t pt : String)
    (n ver c : Nat) (cb : Bool)
    (h1 : s.produceAsTopic = false) (h2 : (jsToLower pt) ∈ produceTypesList)
    (h3 : s.isClone = true) (h4 : kafkaLacksSetup s.kafka = true) :
    (s.to t n pt ver c cb).outcome = .rejected cloneNeedsKafkaMsg
  ∧ (s.to t n pt ver c cb).setupRequested = false
  ∧ (s.to t n pt ver c cb).terminal.attached = false
  ∧ ∀ events, consumeTerminal (s.to t n pt ver c cb).state
      (s.to t n pt ver c cb).terminal events = ([], []) := by
  have hb : (s.to t n pt ver c cb)
      = { state := { s with
                     produceAsTopic := true,
                     outputTopicName := some t,
                     outputPartitionsCount := n,
                     produceType := jsToLower pt,
                     produceVersion := ver,
                     produceCompressionType := c },
          outcome := .rejected cloneNeedsKafkaMsg, setupRequested := false,
          terminal := ⟨false, ver, c, cb⟩ } := by
    simp only [StreamDSL.to, h1, Bool.false_eq_true, if_false]
    rw [if_pos (by simpa using h2)]
    simp [h3, h4]
  refine ⟨by rw [hb], by rw [hb], by rw [hb], fun events => ?_⟩
  rw [hb]
  simp [consumeTerminal]

/-- Witness for C3 on a clone holding a client without `setupProducer`,
with one terminal event whose dispatch would fail. -/
theorem to_clone_missing_setup_rejects_witness :
    (cloneNoSetupHandle.to "out" 1 "send" 1 0 false).outcome
      = .rejected cloneNeedsKafkaMsg
  ∧ (cloneNoSetupHandle.to "out" 1 "send" 1 0 false).setupRequested = false
  ∧ (cloneNoSetupHandle.to "out" 1 "send" 1 0 false).terminal.attached = false
  ∧ consumeTerminal (cloneNoSetupHandle.to "out" 1 "send" 1 0 false).state
      (cloneNoSetupHandle.to "out" 1 "send" 1 0 false).terminal
      [(JSVal.str "m", true)] = ([], []) := by
  obtain ⟨a, b, c, d⟩ :=
    to_clone_missing_setup_rejects cloneNoSetupHandle "out" "send" 1 1 0 false
      rfl (by decide) rfl rfl
  exact ⟨a, b, c, d [(JSVal.str "m", true)]⟩

/-- Claim C10: when `to` is called on an unbound clone lacking the
producer-setup capability (valid mode), the binding fields — bound
flag, output topic, partitions count, normalized produce mode, version
and compression type — have already been mutated when the error is
raised: the failed call leaves the handle bound, so binding is not
atomic on this error. -/
theorem to_clone_missing_setup_binds_first (s : StreamDSL) (t pt : String)
    (n ver c : Nat) (cb : Bool)
    (h1 : s.produceAsTopic = false) (h2 : (jsToLower pt) ∈ produceTypesList)
    (h3 : s.isClone = true) (h4 : kafkaLacksSetup s.kafka = true) :
    (s.to t n pt ver c cb).outcome = .rejected cloneNeedsKafkaMsg
  ∧ (s.to t n pt ver c cb).state.produceAsTopic = true
  ∧ (s.to t n pt ver c cb).state.outputTopicName = some t
  ∧ (s.to t n pt ver c cb).state.outputPartitionsCount = n
  ∧ (s.to t n pt ver c cb).state.produceType = jsToLower pt
  ∧ (s.to t n pt ver c cb).state.produceVersion = ver
  ∧ (s.to t n pt ver c cb).state.produceCompressionType = c := by
  have hb : (s.to t n pt ver c cb)
      = { state := { s with
                     produceAsTopic := true,
                     outputTopicName := some t,
                     outputPartitionsCount := n,
                     produceType := jsToLower pt,
                     produceVersion := ver,
                     produceCompressionType := c },
          outcome := .rejected cloneNeedsKafkaMsg, setupRequested := false,
          terminal := ⟨false, ver, c, cb⟩ } := by
    simp only [StreamDSL.to, h1, Bool.false_eq_true, if_false]
    rw [if_pos (by simpa using h2)]
    simp [h3, h4]
  rw [hb]
  exact ⟨rfl, rfl, rfl, rfl, rfl, rfl, rfl⟩

/-- Witness for C10 on a clone with no broker client at all. -/
theorem to_clone_missing_setup_binds_first_witness :
    (cloneNoKafkaHandle.to "out" 2 "BUFFER" 3 1 true).outcome
      = .rejected cloneNeedsKafkaMsg
  ∧ (cloneNoKafkaHandle.to "out" 2 "BUFFER" 3 1 true).state.produceAsTopic = true
  ∧ (cloneNoKafkaHandle.to "out" 2 "BUFFER" 3 1 true).state.outputTopicName
      = some "out"
  ∧ (cloneNoKafkaHandle.to "out" 2 "BUFFER" 3 1 true).state.outputPartitionsCount = 2
  ∧ (cloneNoKafkaHandle.to "out" 2 "BUFFER" 3 1 true).state.produceType
      = jsToLower "BUFFER"
  ∧ (cloneNoKafkaHandle.to "out" 2 "BUFFER" 3 1 true).state.produceVersion = 3
  ∧ (cloneNoKafkaHandle.to "out" 2 "BUFFER" 3 1 true).state.produceCompressionType
      = 1 :=
  to_clone_missing_setup_binds_first cloneNoKafkaHandle "out" "BUFFER" 2 3 1 true
    rfl (by decide) rfl rfl

/-- Unfolding of the terminal consumer body over a finite event
sequence: one dispatch per event in arrival order, and the error
callback collects exactly the failed messages when a callback was
supplied, nothing otherwise. -/
theorem runTerminal_eq (s : StreamDSL) (tc : TerminalConsumer)
    (events : List (JSVal × Bool)) :
    runTerminal s tc events
      = (events.map fun p => dispatchMessage s tc p.1,
         if tc.hasErrorCallback then (events.filter fun p => p.2).map Prod.fst
         else []) := by
  induction events with
  | nil => simp [runTerminal]
  | cons p rest ih =>
      obtain ⟨message, failed⟩ := p
      by_cases hcb : tc.hasErrorCallback
      · cases failed <;> simp [runTerminal, ih, hcb]
      · simp [runTerminal, ih, hcb]

/-- Claim C5: binding an unbound clone whose client has the
producer-setup capability requests producer setup (the promise resolves
once setup completes), attaches the terminal consumer, stores the mode
normalized, and the consumer then dispatches every terminal event
exactly once, in order, by a defined dispatch for the bound mode; each
dispatch failure is handled independently — forwarded to the error
callback when one was supplied to `to`, swallowed otherwise — and in
either case every subsequent message is still dispatched, with no
message-level retry. -/
theorem to_clone_dispatch_policy (s : StreamDSL) (t pt : String) (n ver c : Nat)
    (cb : Bool) (k : KafkaClient)
    (h1 : s.produceAsTopic = false) (h2 : (jsToLower pt) ∈ produceTypesList)
    (h3 : s.isClone = true) (h4 : s.kafka = some k)
    (h5 : k.hasSetupProducer = true) :
    (s.to t n pt ver c cb).outcome = .pendingSetup
  ∧ (s.to t n pt ver c cb).setupRequested = true
  ∧ (s.to t n pt ver c cb).terminal.attached = true
  ∧ (s.to t n pt ver c cb).state.produceType = jsToLower pt
  ∧ (∀ message, (dispatchMessage (s.to t n pt ver c cb).state
        (s.to t n pt ver c cb).terminal message).isSome = true)
  ∧ ∀ events : List (JSVal × Bool),
      consumeTerminal (s.to t n pt ver c cb).state (s.to t n pt ver c cb).terminal
          events
        = (events.map fun p => dispatchMessage (s.to t n pt ver c cb).state
              (s.to t n pt ver c cb).terminal p.1,
           if cb then (events.filter fun p => p.2).map Prod.fst else []) := by
  have hb : (s.to t n pt ver c cb)
      = { state := { s with
                     produceAsTopic := true,
                     outputTopicName := some t,
                     outputPartitionsCount := n,
                     produceType := jsToLower pt,
                     produceVersion := ver,
                     produceCompressionType := c },
          outcome := .pendingSetup, setupRequested := true,
          terminal := ⟨true, ver, c, cb⟩ } := by
    simp only [StreamDSL.to, h1, Bool.false_eq_true, if_false]
    rw [if_pos (by simpa using h2)]
    simp [h3, h4, kafkaLacksSetup, h5]
  refine ⟨by rw [hb], by rw [hb], by rw [hb], by rw [hb], ?_, ?_⟩
  · intro message
    rw [hb]
    simp only [produceTypesList, List.mem_cons, List.mem_singleton,
      List.not_mem_nil, or_false] at h2
    rcases h2 with h2 | h2 | h2 <;> simp [dispatchMessage, h2]
  · intro events
    rw [hb]
    simp [consumeTerminal, runTerminal_eq]

/-- Witness for C5: a producer-capable clone bound in buffer mode with
an error callback, run over two terminal events of which the first
fails. -/
theorem to_clone_dispatch_policy_witness :
    (cloneReadyHandle.to "out" 1 "buffer" 1 0 true).outcome = .pendingSetup
  ∧ (cloneReadyHandle.to "out" 1 "buffer" 1 0 true).setupRequested = true
  ∧ (cloneReadyHandle.to "out" 1 "buffer" 1 0 true).terminal.attached = true
  ∧ (cloneReadyHandle.to "out" 1 "buffer" 1 0 true).state.produceType
      = jsToLower "buffer"
  ∧ (dispatchMessage (cloneReadyHandle.to "out" 1 "buffer" 1 0 true).state
        (cloneReadyHandle.to "out" 1 "buffer" 1 0 true).terminal
        (JSVal.str "m1")).isSome = true
  ∧ consumeTerminal (cloneReadyHandle.to "out" 1 "buffer" 1 0 true).state
        (cloneReadyHandle.to "out" 1 "buffer" 1 0 true).terminal
        [(JSVal.str "m1", true), (JSVal.str "m2", false)]
      = ([(JSVal.str "m1", true), (JSVal.str "m2", false)].map fun p =>
            dispatchMessage (cloneReadyHandle.to "out" 1 "buffer" 1 0 true).state
              (cloneReadyHandle.to "out" 1 "buffer" 1 0 true).terminal p.1,
         if true then
           ([(JSVal.str "m1", true), (JSVal.str "m2", false)].filter fun p =>
               p.2).map Prod.fst
         else []) := by
  obtain ⟨a, b, c, d, e, f⟩ :=
    to_clone_dispatch_policy cloneReadyHandle "out" "buffer" 1 1 0 true
      producerKafka rfl (by decide) rfl rfl rfl
  exact ⟨a, b, c, d, e (JSVal.str "m1"),
    f [(JSVal.str "m1", true), (JSVal.str "m2", false)]⟩

/-- Counterexample to C7 as stated: the double-binding configuration
error is thrown inside the promise executor, so — by the Promise
constructor semantics the model encodes — the `to` call itself returns
normally and the error surfaces only as a rejection of the returned
promise (`ToOutcome.rejected`, not the synchronous escape
`ToOutcome.threw`). -/
theorem fatal_error_channels_counterexample :
    (boundHandle.to "out" 1 "send" 1 0 false).outcome
      = ToOutcome.rejected alreadyCalledMsg := by
  decide

/-- Claim C7 as amended: construction errors (missing broker client on a
non-clone, missing storage) are synchronous exceptions at the
constructor call, while the configuration errors of `to` (double
binding, invalid produce mode, clone lacking producer setup) are raised
during the call but delivered as a rejection of the returned promise —
`to` never lets an exception escape synchronously. -/
theorem fatal_error_channels (tn : Option String) (stOpt : Option KStorage)
    (kc : KafkaClient) (ic : Bool) (inj : List JSVal) (s : StreamDSL)
    (t pt : String) (n ver c : Nat) (cb : Bool) :
    (ic = false → StreamDSL.construct tn stOpt none ic inj = .error kafkaErrMsg)
  ∧ StreamDSL.construct tn none (some kc) ic inj = .error storageErrMsg
  ∧ ∀ e, (s.to t n pt ver c cb).outcome ≠ .threw e := by
  refine ⟨?_, ?_, ?_⟩
  · intro h
    simp [StreamDSL.construct, h]
  · simp [StreamDSL.construct]
  · intro e
    simp only [StreamDSL.to]
    split
    · simp
    · split
      · split
        · simp
        · split <;> simp
      · simp

/-- Witness for C7: both construction errors at concrete arguments, and
the rejected (not thrown) outcome of a concrete double binding. -/
theorem fatal_error_channels_witness :
    StreamDSL.construct (some "topic-in") (some emptyStorage) none false []
      = .error kafkaErrMsg
  ∧ StreamDSL.construct (some "topic-in") none (some producerKafka) false []
      = .error storageErrMsg
  ∧ (boundHandle.to "out" 1 "send" 1 0 false).outcome
      ≠ ToOutcome.threw alreadyCalledMsg := by
  obtain ⟨a, b, c⟩ :=
    fatal_error_channels (some "topic-in") (some emptyStorage) producerKafka
      false [] boundHandle "out" "send" 1 1 0 false
  exact ⟨a rfl, b, c alreadyCalledMsg⟩
